import Mathlib

/-!
Verification development for a Cloudflare-worker style HTTP relay in front of
the Groq API. The repository holds two variants of the worker in one file:

* the path-mirroring variant (namespace Mirror below): proxies any allowed
  path to the upstream, enforcing a model allowlist on JSON POST bodies and
  computing CORS headers from a configured origin allowlist;
* the fixed-endpoint variant (namespace Fixed below): accepts only POST /chat,
  reshapes the JSON body into the upstream chat-completions schema and streams
  the answer back.

The embedding is shallow: each handler becomes a pure Lean function from the
request, the configuration and two oracles (the platform JSON.parse, and the
upstream fetch) to the response. A handler run is split into a routing phase
(everything up to the single upstream call, value RouteResult) and a relay
phase (what is done with the upstream answer); "the upstream is never
contacted" is rendered as the routing phase ending in RouteResult.respond.
-/

/-- A JSON value as produced by JSON.parse. Numbers are modelled as integers,
which covers every numeric literal appearing in the worker. Object fields are
kept in insertion order, as JS objects do. -/
inductive Json where
  | null : Json
  | bool : Bool → Json
  | num : Int → Json
  | str : String → Json
  | arr : List Json → Json
  | obj : List (String × Json) → Json

/-- One hexadecimal digit, lower case, as used in JSON \u escapes. -/
def hexDigit (n : Nat) : String :=
  if n < 10 then String.singleton (Char.ofNat (48 + n))
  else String.singleton (Char.ofNat (87 + n))

/-- Escaping of a single character inside a JSON string literal, following
JSON.stringify: quote, backslash and control characters are escaped, everything
else is kept. -/
def jsonEscapeChar (c : Char) : String :=
  if c = '"' then "\\\""
  else if c = '\\' then "\\\\"
  else if c = '\n' then "\\n"
  else if c = '\t' then "\\t"
  else if c = '\r' then "\\r"
  else if c = '\x08' then "\\b"
  else if c = '\x0c' then "\\f"
  else if c.toNat < 32 then "\\u00" ++ hexDigit (c.toNat / 16) ++ hexDigit (c.toNat % 16)
  else String.singleton c

/-- A JSON string literal with quotes, following JSON.stringify. -/
def jsonQuote (s : String) : String :=
  "\"" ++ String.join (s.toList.map jsonEscapeChar) ++ "\""

mutual

/-- Serialization of a JSON value, modelling JSON.stringify. -/
def Json.stringify : Json → String
  | Json.null => "null"
  | Json.bool b => if b then "true" else "false"
  | Json.num n => toString n
  | Json.str s => jsonQuote s
  | Json.arr xs => "[" ++ Json.stringifyList xs ++ "]"
  | Json.obj fs => "\x7b" ++ Json.stringifyFields fs ++ "\x7d"

/-- Comma-separated serialization of the elements of a JSON array. -/
def Json.stringifyList : List Json → String
  | [] => ""
  | [x] => Json.stringify x
  | x :: y :: xs => Json.stringify x ++ "," ++ Json.stringifyList (y :: xs)

/-- Comma-separated serialization of the fields of a JSON object. -/
def Json.stringifyFields : List (String × Json) → String
  | [] => ""
  | [(k, v)] => jsonQuote k ++ ":" ++ Json.stringify v
  | (k, v) :: f :: fs =>
    jsonQuote k ++ ":" ++ Json.stringify v ++ "," ++ Json.stringifyFields (f :: fs)

end

/-- Test for the JSON null value, as the JS comparisons against null. -/
def Json.isNull : Json → Bool
  | Json.null => true
  | _ => false

/-- The JS s.slice(0, n): the first n characters of a string. -/
def jsSlice (s : String) (n : Nat) : String :=
  String.mk (s.toList.take n)

/-- Property lookup on a JSON value, as JS property access restricted to the
keys the worker uses: only objects have such properties, and JSON.parse never
produces duplicate keys. Absence models the JS value undefined. -/
def jsGet (j : Json) (k : String) : Option Json :=
  match j with
  | Json.obj fs => (fs.find? (fun p => p.1 = k)).map Prod.snd
  | _ => none

/-- Lower-casing of one ASCII character, for case-insensitive header names. -/
def asciiLowerChar (c : Char) : Char :=
  if 'A' ≤ c ∧ c ≤ 'Z' then Char.ofNat (c.toNat + 32) else c

/-- ASCII lower-casing of a string, for case-insensitive header names. -/
def asciiLower (s : String) : String :=
  String.mk (s.toList.map asciiLowerChar)

/-- Header lists model the fetch Headers object: a multiset of name/value
pairs with case-insensitive names. -/
abbrev HeaderList := List (String × String)

/-- Headers.get: first value stored under the (case-insensitive) name. -/
def hGet (h : HeaderList) (k : String) : Option String :=
  (h.find? (fun p => asciiLower p.1 = asciiLower k)).map Prod.snd

/-- Headers.set: replace every value stored under the name by the given one. -/
def hSet (h : HeaderList) (k v : String) : HeaderList :=
  (h.filter (fun p => asciiLower p.1 ≠ asciiLower k)) ++ [(k, v)]

/-- Headers.delete: drop every value stored under the name. -/
def hDelete (h : HeaderList) (k : String) : HeaderList :=
  h.filter (fun p => asciiLower p.1 ≠ asciiLower k)

/-- The JS expression x || d for an optional string x: the default is taken
when the header is absent or its value is the empty string (falsy). -/
def jsOr (x : Option String) (d : String) : String :=
  match x with
  | some s => if s = "" then d else s
  | none => d

/-- Truthiness of an optional string, as JS sees a Headers.get result. -/
def truthyStr (x : Option String) : Bool :=
  match x with
  | some s => s ≠ ""
  | none => false

/-- The JS test s.includes(sub). -/
def strIncludes (s sub : String) : Bool :=
  (List.range (s.toList.length + 1)).any
    (fun i => sub.toList.isPrefixOf (s.toList.drop i))

/-- The JS test s.startsWith(p). -/
def startsWithStr (s p : String) : Bool :=
  p.toList.isPrefixOf s.toList

/-- Whitespace as trimmed by the JS String.prototype.trim. -/
def isJsWhitespace (c : Char) : Bool :=
  c = ' ' ∨ c = '\t' ∨ c = '\n' ∨ c = '\r' ∨ c = '\x0b' ∨ c = '\x0c'

/-- The JS s.trim(): drop whitespace from both ends. -/
def jsTrim (s : String) : String :=
  String.mk (((s.toList.dropWhile isJsWhitespace).reverse.dropWhile
    isJsWhitespace).reverse)

/-- Splitting of a string at commas, as the JS s.split used by the worker;
an empty string yields a single empty item. -/
def splitCommaAux : List Char → List Char → List (List Char)
  | [], cur => [cur.reverse]
  | c :: cs, cur =>
    if c = ',' then cur.reverse :: splitCommaAux cs []
    else splitCommaAux cs (c :: cur)

/-- Splitting of a string at commas, string-valued wrapper. -/
def splitComma (s : String) : List String :=
  (splitCommaAux s.toList []).map String.mk

/-- An incoming HTTP request: method, URL path and query, headers, and the
body text when a body was sent. -/
structure Request where
  method : String
  pathname : String
  search : String
  headers : HeaderList
  body : Option String
deriving DecidableEq

/-- An HTTP response as the worker builds it. -/
structure Response where
  status : Nat
  headers : HeaderList
  body : Option String
deriving DecidableEq

/-- The single outbound request a worker run may issue to the upstream. -/
structure OutboundRequest where
  url : String
  method : String
  headers : HeaderList
  body : Option String
deriving DecidableEq

/-- Outcome of the routing phase of a handler: either a response produced
without contacting the upstream, or the outbound request of the single
upstream call. -/
inductive RouteResult where
  | respond : Response → RouteResult
  | proxy : OutboundRequest → RouteResult
deriving DecidableEq

/-- Status of the directly produced response, if the routing phase produced
one without contacting the upstream. -/
def RouteResult.respondStatus : RouteResult → Option Nat
  | RouteResult.respond r => some r.status
  | RouteResult.proxy _ => none

/-- Headers of the outbound request, if the routing phase proxies. -/
def RouteResult.outHeaders : RouteResult → Option HeaderList
  | RouteResult.respond _ => none
  | RouteResult.proxy o => some o.headers

namespace Mirror

/-- Configuration of the path-mirroring variant (interface Env). -/
structure Env where
  GROQ_API_KEY : String
  ALLOW_MODELS : Option String
  ALLOW_PATHS : Option String
  CORS_ORIGINS : Option String
deriving DecidableEq

/-- Fixed upstream origin. -/
def UPSTREAM_ORIGIN : String := "https://api.groq.com"

/-- Split an optional CSV string, trim each item and drop empty items. -/
def csv (s : Option String) : List String :=
  ((splitComma (s.getD "")).map jsTrim).filter (fun x => x ≠ "")

/-- Resolution of the CORS origin from the configured allowlist and the Origin
request header. -/
def pickOrigin (req : Request) (env : Env) : String :=
  let fromList := csv env.CORS_ORIGINS
  let reqOrigin := hGet req.headers "Origin"
  if fromList ≠ [] then
    if truthyStr reqOrigin ∧ fromList.contains (reqOrigin.getD "") then
      reqOrigin.getD ""
    else
      match fromList.head? with
      | some origin => if origin ≠ "" then origin else "*"
      | none => "*"
  else "*"

/-- Rebuild a response with the CORS headers set, appending Vary: Origin when
the resolved origin is not the wildcard. -/
def withCORS (res : Response) (origin : String) : Response :=
  let h0 := hSet res.headers "Access-Control-Allow-Origin" origin
  let h1 := hSet h0 "Access-Control-Allow-Headers" "Content-Type, Authorization"
  let h2 := hSet h1 "Access-Control-Allow-Methods" "GET, POST, OPTIONS"
  let h3 := if origin ≠ "*" then h2 ++ [("Vary", "Origin")] else h2
  Response.mk res.status h3 res.body

/-- The path allowlist check: the configured list when non-empty, else the
four default endpoints; a path passes when it equals or starts with a member. -/
def allowedPath (pathname : String) (env : Env) : Bool :=
  let defaults := ["/openai/v1/chat/completions", "/openai/v1/responses",
                   "/openai/v1/embeddings", "/openai/v1/models"]
  let allow := csv env.ALLOW_PATHS
  let list := if allow ≠ [] then allow else defaults
  list.any (fun p => pathname == p || startsWithStr pathname p)

/-- The requested model: the model field of the parsed body when it is an
object holding a string there, else the empty string; trimmed. -/
def requestedModel (j : Json) : String :=
  jsTrim
    (match j with
     | Json.obj fs =>
       match (fs.find? (fun p => p.1 = "model")).map Prod.snd with
       | some (Json.str s) => s
       | _ => ""
     | _ => "")

/-- The outbound body: null for GET and HEAD regardless of the prepared body. -/
def outBody (method : String) (b : Option String) : Option String :=
  if method = "GET" ∨ method = "HEAD" then none else b

/-- The outbound headers: a copy of the incoming headers with Authorization
overwritten by the bearer credential, Content-Type defaulted when unset or
empty, and Host removed. -/
def proxyHeaders (env : Env) (req : Request) : HeaderList :=
  let headers0 := hSet req.headers "Authorization" ("Bearer " ++ env.GROQ_API_KEY)
  let headers1 := hSet headers0 "Content-Type"
    (jsOr (hGet headers0 "Content-Type") "application/json")
  hDelete headers1 "Host"

/-- The health-check response. -/
def healthResponse (origin : String) : Response :=
  withCORS (Response.mk 200 [("Content-Type", "application/json")]
    (some (Json.stringify (Json.obj [("ok", Json.bool true)])))) origin

/-- The preflight response. -/
def preflightResponse (origin : String) : Response :=
  withCORS (Response.mk 204 [] none) origin

/-- The response for a path outside the allowlist. -/
def notFoundResponse (origin : String) : Response :=
  withCORS (Response.mk 404 [] (some "Not found")) origin

/-- The response for an unparsable JSON body. -/
def invalidJsonResponse (origin : String) : Response :=
  withCORS (Response.mk 400 [("Content-Type", "application/json")]
    (some (Json.stringify (Json.obj [("error", Json.str "Invalid JSON")])))) origin

/-- The response for a model outside the allowlist. -/
def modelNotAllowedResponse (allowedModels : List String) (origin : String) : Response :=
  withCORS (Response.mk 403 [("Content-Type", "application/json")]
    (some (Json.stringify (Json.obj
      [("error", Json.str "Model not allowed"),
       ("allowed", Json.arr (allowedModels.map Json.str))])))) origin

/-- Routing phase of the path-mirroring fetch handler. The parse argument is
the platform JSON.parse, returning none when parsing throws. -/
def route (parse : String → Option Json) (env : Env) (req : Request) : RouteResult :=
  let origin := pickOrigin req env
  if req.pathname = "/health" then
    RouteResult.respond (healthResponse origin)
  else if req.method = "OPTIONS" then
    RouteResult.respond (preflightResponse origin)
  else if allowedPath req.pathname env = false then
    RouteResult.respond (notFoundResponse origin)
  else
    let upstreamUrl := UPSTREAM_ORIGIN ++ req.pathname ++ req.search
    let headers := proxyHeaders env req
    if req.method = "POST" then
      let ct := jsOr (hGet headers "Content-Type") ""
      if strIncludes ct "application/json" then
        let raw := req.body.getD ""
        match (if raw = "" then some (Json.obj []) else parse raw) with
        | none =>
          RouteResult.respond (invalidJsonResponse origin)
        | some j =>
          let allowedModels := csv env.ALLOW_MODELS
          let requested := requestedModel j
          if allowedModels ≠ [] then
            if requested = "" ∨ allowedModels.contains requested = false then
              RouteResult.respond (modelNotAllowedResponse allowedModels origin)
            else
              RouteResult.proxy (OutboundRequest.mk upstreamUrl req.method headers
                (outBody req.method (some (Json.stringify j))))
          else
            RouteResult.proxy (OutboundRequest.mk upstreamUrl req.method headers
              (outBody req.method (some (Json.stringify j))))
      else
        RouteResult.proxy (OutboundRequest.mk upstreamUrl req.method headers
          (outBody req.method req.body))
    else
      RouteResult.proxy (OutboundRequest.mk upstreamUrl req.method headers
        (outBody req.method none))

/-- Relay phase: the upstream response is passed through with its status,
headers and body, plus the CORS headers. -/
def relay (up : Response) (origin : String) : Response :=
  withCORS (Response.mk up.status up.headers up.body) origin

/-- Full handler: route, then relay the upstream answer when one was asked
for. The upstream argument is the oracle for the platform fetch. -/
def finalResponse (parse : String → Option Json) (env : Env) (req : Request)
    (upstream : OutboundRequest → Response) : Response :=
  match route parse env req with
  | RouteResult.respond r => r
  | RouteResult.proxy o => relay (upstream o) (pickOrigin req env)

end Mirror

namespace Fixed

/-- Configuration of the fixed-endpoint variant (interface Env). -/
structure Env where
  GROQ_API_KEY : String
deriving DecidableEq

/-- Fixed CORS origin of the fixed-endpoint variant. -/
def CORS_ORIGIN : String := "https://george.czabania.com"

/-- Build a JSON response with the fixed CORS headers. The extra-headers
parameter of the source is omitted: every call site leaves it empty. -/
def json (data : Json) (status : Nat) : Response :=
  Response.mk status
    [("Content-Type", "application/json"),
     ("Access-Control-Allow-Origin", CORS_ORIGIN),
     ("Access-Control-Allow-Headers", "Content-Type, Authorization"),
     ("Access-Control-Allow-Methods", "POST, OPTIONS")]
    (some (Json.stringify data))

/-- The fixed 204 preflight response. -/
def corsPreflight : Response :=
  Response.mk 204
    [("Access-Control-Allow-Origin", CORS_ORIGIN),
     ("Access-Control-Allow-Headers", "Content-Type, Authorization"),
     ("Access-Control-Allow-Methods", "POST, OPTIONS"),
     ("Access-Control-Max-Age", "86400")]
    none

/-- Acceptance test on the user field: the destructured value must be a truthy
string, so a missing field, a non-string and the empty string are rejected. -/
def userOk (u : Option Json) : Bool :=
  match u with
  | some (Json.str s) => s ≠ ""
  | _ => false

/-- The outbound chat-completions payload built from the parsed body, with the
source defaults applied during destructuring (a default fires only when the
field is absent) and stop included only when present and not null. The user
field is only read here after userOk passed, so the null fallback for the
missing case is never reached on the live path. -/
def buildPayload (body : Json) : Json :=
  let system := (jsGet body "system").getD (Json.str "You are a helpful assistant.")
  let user := (jsGet body "user").getD Json.null
  let model := (jsGet body "model").getD (Json.str "llama-3.1-8b-instant")
  let temperature := (jsGet body "temperature").getD (Json.num 1)
  let max_tokens := (jsGet body "max_tokens").getD (Json.num 1024)
  let top_p := (jsGet body "top_p").getD (Json.num 1)
  let stop := jsGet body "stop"
  Json.obj
    ([("model", model), ("temperature", temperature), ("top_p", top_p),
      ("stream", Json.bool true),
      ("max_completion_tokens", max_tokens),
      ("messages", Json.arr
        [Json.obj [("role", Json.str "system"), ("content", system)],
         Json.obj [("role", Json.str "user"), ("content", user)]])] ++
     (match stop with
      | some s => if s.isNull = false then [("stop", s)] else []
      | none => []))

/-- Routing phase of the fixed-endpoint fetch handler. The parse argument is
the platform JSON.parse applied to the request body text (request.json),
returning none when parsing throws. -/
def route (parse : String → Option Json) (env : Env) (req : Request) : RouteResult :=
  if req.method = "OPTIONS" then
    RouteResult.respond corsPreflight
  else if req.pathname = "/health" then
    RouteResult.respond (json (Json.obj [("ok", Json.bool true)]) 200)
  else if req.pathname ≠ "/chat" then
    RouteResult.respond (Response.mk 404 [] (some "Not found"))
  else if req.method ≠ "POST" then
    RouteResult.respond (Response.mk 405 [] (some "Method Not Allowed"))
  else
    match parse (req.body.getD "") with
    | none =>
      RouteResult.respond (json (Json.obj [("error", Json.str "Invalid JSON")]) 400)
    | some parsed =>
      let body := if parsed.isNull then Json.obj [] else parsed
      if userOk (jsGet body "user") = false then
        RouteResult.respond
          (json (Json.obj [("error", Json.str "Missing \x27user\x27 (string) in body")]) 400)
      else
        RouteResult.proxy (OutboundRequest.mk
          "https://api.groq.com/openai/v1/chat/completions" "POST"
          [("Authorization", "Bearer " ++ env.GROQ_API_KEY),
           ("Content-Type", "application/json")]
          (some (Json.stringify (buildPayload body))))

/-- The upstream answer as the fixed-endpoint relay observes it: status, the
body when one is present (null body otherwise), and whether reading the body
text throws (in which case the catch block keeps the empty details). -/
structure UpstreamResponse where
  status : Nat
  body : Option String
  textThrows : Bool
deriving DecidableEq

/-- The fetch Response.ok flag: status in the 2xx range. -/
def respOk (u : UpstreamResponse) : Bool :=
  200 ≤ u.status ∧ u.status ≤ 299

/-- Relay phase of the fixed-endpoint variant: non-ok status or missing body
turns into the JSON error envelope under the upstream status, a successful
body is streamed through under status 200 with event-stream headers. -/
def relay (up : UpstreamResponse) : Response :=
  if respOk up = false ∨ up.body = none then
    let details := if up.textThrows then "" else up.body.getD ""
    json (Json.obj
      [("error", Json.str "Upstream Groq error"),
       ("status", Json.num (up.status : Int)),
       ("details", Json.str (jsSlice details 2000))]) up.status
  else
    Response.mk 200
      [("Content-Type", "text/event-stream"),
       ("Cache-Control", "no-cache"),
       ("Connection", "keep-alive"),
       ("Access-Control-Allow-Origin", CORS_ORIGIN),
       ("Access-Control-Allow-Headers", "Content-Type, Authorization"),
       ("Access-Control-Allow-Methods", "POST, OPTIONS")]
      up.body

/-- Full handler of the fixed-endpoint variant, with the upstream fetch as an
oracle. -/
def finalResponse (parse : String → Option Json) (env : Env) (req : Request)
    (upstream : OutboundRequest → UpstreamResponse) : Response :=
  match route parse env req with
  | RouteResult.respond r => r
  | RouteResult.proxy o => relay (upstream o)

end Fixed

section HeaderLemmas

/-- Filtering away only elements that fail the search predicate leaves find?
unchanged. -/
theorem find?_filter_keep {α : Type} (l : List α) (p q : α → Bool)
    (h : ∀ x, p x = true → q x = true) :
    (l.filter q).find? p = l.find? p := by
  induction l with
  | nil => rfl
  | cons a l ih =>
    by_cases hq : q a = true
    · rw [List.filter_cons_of_pos hq]
      by_cases hp : p a = true
      · rw [List.find?_cons_of_pos _ hp, List.find?_cons_of_pos _ hp]
      · rw [List.find?_cons_of_neg _ (by simpa using hp),
          List.find?_cons_of_neg _ (by simpa using hp), ih]
    · have hp : ¬ p a = true := fun hpa => hq (h a hpa)
      rw [List.filter_cons_of_neg (by simpa using hq),
        List.find?_cons_of_neg _ (by simpa using hp), ih]

/-- Looking a key up in a concatenation searches the left part first. -/
theorem hGet_append (h₁ h₂ : HeaderList) (k : String) :
    hGet (h₁ ++ h₂) k = ((hGet h₁ k).orElse (fun _ => hGet h₂ k)) := by
  unfold hGet
  rw [List.find?_append]
  cases (h₁.find? (fun p => asciiLower p.1 = asciiLower k)) <;> rfl

/-- Headers.get after Headers.set on the same key yields the new value. -/
theorem hGet_hSet_self (h : HeaderList) (k v : String) :
    hGet (hSet h k v) k = some v := by
  unfold hSet
  rw [show ((h.filter (fun p => asciiLower p.1 ≠ asciiLower k)) ++ [(k, v)]) =
      ((h.filter (fun p => asciiLower p.1 ≠ asciiLower k)) ++ [(k, v)]) from rfl]
  rw [hGet_append]
  have hnone : hGet (h.filter (fun p => asciiLower p.1 ≠ asciiLower k)) k = none := by
    unfold hGet
    rw [List.find?_eq_none.mpr]
    · rfl
    · intro x hx
      have := (List.mem_filter.mp hx).2
      simpa using this
  rw [hnone]
  simp [hGet]

/-- Headers.get after Headers.set on a different key is unchanged. -/
theorem hGet_hSet_ne (h : HeaderList) (k v k' : String)
    (hne : asciiLower k' ≠ asciiLower k) :
    hGet (hSet h k v) k' = hGet h k' := by
  unfold hSet
  rw [hGet_append]
  have hkeep : hGet (h.filter (fun p => asciiLower p.1 ≠ asciiLower k)) k' = hGet h k' := by
    unfold hGet
    rw [find?_filter_keep]
    intro x hx
    simp only [decide_eq_true_eq] at hx
    simpa using (hx ▸ hne)
  rw [hkeep]
  cases hres : hGet h k' with
  | some v' => rfl
  | none =>
    show Option.orElse none (fun _ => hGet [(k, v)] k') = none
    simp [Option.orElse, hGet, List.find?, Ne.symm hne]

/-- Headers.get after Headers.delete on the same key is absent. -/
theorem hGet_hDelete_self (h : HeaderList) (k : String) :
    hGet (hDelete h k) k = none := by
  unfold hDelete hGet
  rw [List.find?_eq_none.mpr]
  · rfl
  · intro x hx
    have := (List.mem_filter.mp hx).2
    simpa using this

/-- Headers.get after Headers.delete on a different key is unchanged. -/
theorem hGet_hDelete_ne (h : HeaderList) (k k' : String)
    (hne : asciiLower k' ≠ asciiLower k) :
    hGet (hDelete h k) k' = hGet h k' := by
  unfold hDelete hGet
  rw [find?_filter_keep]
  intro x hx
  simp only [decide_eq_true_eq] at hx
  simpa using (hx ▸ hne)

end HeaderLemmas

section ProxyHeaderLemmas

/-- The outbound Authorization header is always the injected credential. -/
theorem hGet_proxyHeaders_auth (env : Mirror.Env) (req : Request) :
    hGet (Mirror.proxyHeaders env req) "Authorization" =
      some ("Bearer " ++ env.GROQ_API_KEY) := by
  unfold Mirror.proxyHeaders
  rw [hGet_hDelete_ne _ _ _ (by decide), hGet_hSet_ne _ _ _ _ (by decide),
    hGet_hSet_self]

/-- The outbound Host header is always absent. -/
theorem hGet_proxyHeaders_host (env : Mirror.Env) (req : Request) :
    hGet (Mirror.proxyHeaders env req) "Host" = none := by
  unfold Mirror.proxyHeaders
  rw [hGet_hDelete_self]

/-- The outbound Content-Type header is the incoming one defaulted to JSON
when absent or empty. -/
theorem hGet_proxyHeaders_ct (env : Mirror.Env) (req : Request) :
    hGet (Mirror.proxyHeaders env req) "Content-Type" =
      some (jsOr (hGet req.headers "Content-Type") "application/json") := by
  unfold Mirror.proxyHeaders
  rw [hGet_hDelete_ne _ _ _ (by decide), hGet_hSet_self,
    hGet_hSet_ne _ _ _ _ (by decide)]

end ProxyHeaderLemmas

/-- The empty string is never a member of a parsed CSV allowlist. -/
theorem empty_not_mem_csv (s : Option String) : "" ∉ Mirror.csv s := by
  intro h
  have := (List.mem_filter.mp h).2
  simp at this

/-- Characterization of the routing phase on a POST whose effective
Content-Type indicates JSON and whose path passed the gate. -/
theorem route_post_json (parse : String → Option Json) (env : Mirror.Env) (req : Request)
    (hph : req.pathname ≠ "/health") (hm : req.method = "POST")
    (hap : Mirror.allowedPath req.pathname env = true)
    (hctj : strIncludes (jsOr (hGet (Mirror.proxyHeaders env req) "Content-Type") "")
      "application/json" = true) :
    Mirror.route parse env req =
      match (if req.body.getD "" = "" then some (Json.obj [])
             else parse (req.body.getD "")) with
      | none => RouteResult.respond (Mirror.invalidJsonResponse (Mirror.pickOrigin req env))
      | some j =>
        if Mirror.csv env.ALLOW_MODELS ≠ [] then
          if Mirror.requestedModel j = "" ∨
              (Mirror.csv env.ALLOW_MODELS).contains (Mirror.requestedModel j) = false then
            RouteResult.respond (Mirror.modelNotAllowedResponse
              (Mirror.csv env.ALLOW_MODELS) (Mirror.pickOrigin req env))
          else
            RouteResult.proxy (OutboundRequest.mk
              (Mirror.UPSTREAM_ORIGIN ++ req.pathname ++ req.search) req.method
              (Mirror.proxyHeaders env req)
              (Mirror.outBody req.method (some (Json.stringify j))))
        else
          RouteResult.proxy (OutboundRequest.mk
            (Mirror.UPSTREAM_ORIGIN ++ req.pathname ++ req.search) req.method
            (Mirror.proxyHeaders env req)
            (Mirror.outBody req.method (some (Json.stringify j)))) := by
  have hopt : req.method ≠ "OPTIONS" := by rw [hm]; decide
  simp only [Mirror.route, if_neg hph, if_neg hopt, hap, if_pos hm, hctj]
  norm_num

/-- Boolean contains on string lists agrees with membership. -/
theorem contains_iff_mem_str (l : List String) (a : String) :
    l.contains a = true ↔ a ∈ l := by
  simp

/-- C1: in the path-mirroring variant, a POST with a JSON Content-Type to an
allowed path is forwarded to the upstream iff the model allowlist L is empty
or the requested model (trimmed model string field of the parsed body, empty
when absent or not a string) is a member of L; otherwise the response is a 403
whose JSON body names the error and lists L, and the upstream is never
contacted (the routing phase ends in respond). -/
theorem C1_mirror_model_allowlist
    (parse : String → Option Json) (env : Mirror.Env) (req : Request)
    (hph : req.pathname ≠ "/health") (hm : req.method = "POST")
    (hap : Mirror.allowedPath req.pathname env = true)
    (ct : String) (hct : hGet req.headers "Content-Type" = some ct)
    (hctne : ct ≠ "") (hctj : strIncludes ct "application/json" = true)
    (j : Json)
    (hpj : (if req.body.getD "" = "" then some (Json.obj [])
            else parse (req.body.getD "")) = some j) :
    ((∃ o, Mirror.route parse env req = RouteResult.proxy o)
        ↔ (Mirror.csv env.ALLOW_MODELS = [] ∨
           Mirror.requestedModel j ∈ Mirror.csv env.ALLOW_MODELS))
    ∧ (¬ (Mirror.csv env.ALLOW_MODELS = [] ∨
          Mirror.requestedModel j ∈ Mirror.csv env.ALLOW_MODELS) →
        Mirror.route parse env req = RouteResult.respond
          (Mirror.modelNotAllowedResponse (Mirror.csv env.ALLOW_MODELS)
            (Mirror.pickOrigin req env))) := by
  have hctp : hGet (Mirror.proxyHeaders env req) "Content-Type" = some ct := by
    rw [hGet_proxyHeaders_ct, hct]
    simp [jsOr, hctne]
  have hctj' : strIncludes (jsOr (hGet (Mirror.proxyHeaders env req) "Content-Type") "")
      "application/json" = true := by
    rw [hctp]
    simpa [jsOr, hctne] using hctj
  have hroute := route_post_json parse env req hph hm hap hctj'
  rw [hpj] at hroute
  by_cases hL : Mirror.csv env.ALLOW_MODELS = []
  · simp only [hL, ne_eq, not_true_eq_false, if_false, if_neg] at hroute
    constructor
    · exact ⟨fun _ => Or.inl hL, fun _ => ⟨_, by simpa using hroute⟩⟩
    · intro hcon
      exact absurd (Or.inl hL) hcon
  · by_cases hmem : Mirror.requestedModel j ∈ Mirror.csv env.ALLOW_MODELS
    · have hne : Mirror.requestedModel j ≠ "" := by
        intro he
        exact empty_not_mem_csv env.ALLOW_MODELS (he ▸ hmem)
      have hcont : (Mirror.csv env.ALLOW_MODELS).contains (Mirror.requestedModel j) = true :=
        (contains_iff_mem_str _ _).mpr hmem
      simp only [hL, ne_eq, not_false_eq_true, if_true, hne, hcont,
        Bool.true_eq_false, or_self, if_false] at hroute
      constructor
      · exact ⟨fun _ => Or.inr hmem, fun _ => ⟨_, by simpa using hroute⟩⟩
      · intro hcon
        exact absurd (Or.inr hmem) hcon
    · have hcont : (Mirror.csv env.ALLOW_MODELS).contains (Mirror.requestedModel j) = false := by
        cases hc : (Mirror.csv env.ALLOW_MODELS).contains (Mirror.requestedModel j) with
        | false => rfl
        | true => exact absurd ((contains_iff_mem_str _ _).mp hc) hmem
      simp only [hL, ne_eq, not_false_eq_true, if_true, hcont, or_true, if_pos] at hroute
      constructor
      · constructor
        · rintro ⟨o, ho⟩
          rw [hroute] at ho
          exact absurd ho (by simp)
        · rintro (h | h)
          · exact absurd h hL
          · exact absurd h hmem
      · intro _
        exact hroute

/-- A JSON.parse oracle that fails on every input. -/
def parseNone : String → Option Json := fun _ => none

/-- Concrete configuration exercising the model allowlist. -/
def envC1 : Mirror.Env := Mirror.Env.mk "secret" (some "llama-3.1-8b-instant") none none

/-- Concrete empty-body JSON POST to an allowed path. -/
def reqC1 : Request :=
  Request.mk "POST" "/openai/v1/chat/completions" ""
    [("Content-Type", "application/json")] (some "")

/-- Witness for C1: a concrete POST with an empty requested model against a
non-empty allowlist is answered 403 without contacting the upstream. -/
theorem C1_witness :
    reqC1.pathname ≠ "/health" ∧ reqC1.method = "POST"
    ∧ Mirror.allowedPath reqC1.pathname envC1 = true
    ∧ hGet reqC1.headers "Content-Type" = some "application/json"
    ∧ ("application/json" : String) ≠ ""
    ∧ strIncludes "application/json" "application/json" = true
    ∧ (if reqC1.body.getD "" = "" then some (Json.obj [])
       else parseNone (reqC1.body.getD "")) = some (Json.obj [])
    ∧ (((∃ o, Mirror.route parseNone envC1 reqC1 = RouteResult.proxy o)
          ↔ (Mirror.csv envC1.ALLOW_MODELS = [] ∨
             Mirror.requestedModel (Json.obj []) ∈ Mirror.csv envC1.ALLOW_MODELS))
       ∧ (¬ (Mirror.csv envC1.ALLOW_MODELS = [] ∨
             Mirror.requestedModel (Json.obj []) ∈ Mirror.csv envC1.ALLOW_MODELS) →
           Mirror.route parseNone envC1 reqC1 = RouteResult.respond
             (Mirror.modelNotAllowedResponse (Mirror.csv envC1.ALLOW_MODELS)
               (Mirror.pickOrigin reqC1 envC1)))) :=
  ⟨by decide, by decide, by decide, by decide, by decide, by decide, rfl,
   C1_mirror_model_allowlist parseNone envC1 reqC1 (by decide) (by decide) (by decide)
     "application/json" (by decide) (by decide) (by decide) (Json.obj []) rfl⟩

/-- Every member of a parsed CSV allowlist is a non-empty string. -/
theorem csv_mem_ne_empty (s : Option String) (x : String) (h : x ∈ Mirror.csv s) :
    x ≠ "" := by
  intro he
  exact empty_not_mem_csv s (he ▸ h)

/-- The routing phase on a path outside the allowlist: 404, no upstream. -/
theorem route_not_allowed (parse : String → Option Json) (env : Mirror.Env) (req : Request)
    (hph : req.pathname ≠ "/health") (hopt : req.method ≠ "OPTIONS")
    (hap : Mirror.allowedPath req.pathname env = false) :
    Mirror.route parse env req =
      RouteResult.respond (Mirror.notFoundResponse (Mirror.pickOrigin req env)) := by
  simp only [Mirror.route, if_neg hph, if_neg hopt, hap]
  simp

/-- The routing phase on an allowed non-POST, non-OPTIONS, non-health request:
always proxied with a null prepared body. -/
theorem route_non_post (parse : String → Option Json) (env : Mirror.Env) (req : Request)
    (hph : req.pathname ≠ "/health") (hopt : req.method ≠ "OPTIONS")
    (hap : Mirror.allowedPath req.pathname env = true)
    (hpost : req.method ≠ "POST") :
    Mirror.route parse env req = RouteResult.proxy (OutboundRequest.mk
      (Mirror.UPSTREAM_ORIGIN ++ req.pathname ++ req.search) req.method
      (Mirror.proxyHeaders env req) (Mirror.outBody req.method none)) := by
  simp only [Mirror.route, if_neg hph, if_neg hopt, hap, if_neg hpost]
  simp

/-- The routing phase on an allowed POST whose effective Content-Type does not
indicate JSON: proxied with the raw body. -/
theorem route_post_nonjson (parse : String → Option Json) (env : Mirror.Env) (req : Request)
    (hph : req.pathname ≠ "/health") (hm : req.method = "POST")
    (hap : Mirror.allowedPath req.pathname env = true)
    (hctj : strIncludes (jsOr (hGet (Mirror.proxyHeaders env req) "Content-Type") "")
      "application/json" = false) :
    Mirror.route parse env req = RouteResult.proxy (OutboundRequest.mk
      (Mirror.UPSTREAM_ORIGIN ++ req.pathname ++ req.search) req.method
      (Mirror.proxyHeaders env req) (Mirror.outBody req.method req.body)) := by
  have hopt : req.method ≠ "OPTIONS" := by rw [hm]; decide
  simp only [Mirror.route, if_neg hph, if_neg hopt, hap, if_pos hm, hctj]
  simp

/-- A respond outcome of the path-mirroring routing phase is one of the five
worker-generated responses, always wrapped by withCORS. -/
theorem mirror_route_respond_cases (parse : String → Option Json) (env : Mirror.Env)
    (req : Request) (r : Response)
    (h : Mirror.route parse env req = RouteResult.respond r) :
    r = Mirror.healthResponse (Mirror.pickOrigin req env)
    ∨ r = Mirror.preflightResponse (Mirror.pickOrigin req env)
    ∨ r = Mirror.notFoundResponse (Mirror.pickOrigin req env)
    ∨ r = Mirror.invalidJsonResponse (Mirror.pickOrigin req env)
    ∨ r = Mirror.modelNotAllowedResponse (Mirror.csv env.ALLOW_MODELS)
        (Mirror.pickOrigin req env) := by
  simp only [Mirror.route] at h
  repeat' split at h
  all_goals cases h <;> simp

/-- A proxy outcome of the path-mirroring routing phase always carries the
massaged headers, the mirrored URL and the request method. -/
theorem mirror_route_proxy_shape (parse : String → Option Json) (env : Mirror.Env)
    (req : Request) (o : OutboundRequest)
    (h : Mirror.route parse env req = RouteResult.proxy o) :
    o.headers = Mirror.proxyHeaders env req
    ∧ o.url = Mirror.UPSTREAM_ORIGIN ++ req.pathname ++ req.search
    ∧ o.method = req.method := by
  simp only [Mirror.route] at h
  repeat' split at h
  all_goals cases h <;> simp

/-- The Access-Control-Allow-Origin header set by withCORS. -/
theorem hGet_withCORS_acao (r : Response) (o : String) :
    hGet (Mirror.withCORS r o).headers "Access-Control-Allow-Origin" = some o := by
  unfold Mirror.withCORS
  simp only
  have hbase : hGet (hSet (hSet (hSet r.headers "Access-Control-Allow-Origin" o)
      "Access-Control-Allow-Headers" "Content-Type, Authorization")
      "Access-Control-Allow-Methods" "GET, POST, OPTIONS")
      "Access-Control-Allow-Origin" = some o := by
    rw [hGet_hSet_ne _ _ _ _ (by decide), hGet_hSet_ne _ _ _ _ (by decide),
      hGet_hSet_self]
  by_cases ho : o ≠ "*"
  · rw [if_pos ho, hGet_append, hbase]
    rfl
  · rw [if_neg ho]
    exact hbase

/-- Presence of a Vary: Origin entry in a header list. -/
def hasVaryOrigin (h : HeaderList) : Bool :=
  h.any (fun p => asciiLower p.1 = "vary" ∧ p.2 = "Origin")

/-- A filtered header list has no Vary: Origin entry if the original has none. -/
theorem hasVaryOrigin_filter (l : HeaderList) (q : String × String → Bool)
    (h : hasVaryOrigin l = false) : hasVaryOrigin (l.filter q) = false := by
  unfold hasVaryOrigin at h ⊢
  rw [List.any_eq_false] at h ⊢
  intro p hp
  exact h p (List.mem_filter.mp hp).1

/-- Vary: Origin detection distributes over concatenation. -/
theorem hasVaryOrigin_append (l l' : HeaderList) :
    hasVaryOrigin (l ++ l') = (hasVaryOrigin l || hasVaryOrigin l') := by
  unfold hasVaryOrigin
  exact List.any_append

/-- A one-entry header list under a key other than Vary holds no Vary: Origin
entry, whatever the value is. -/
theorem hasVaryOrigin_single (k v : String) (hk : asciiLower k ≠ "vary") :
    hasVaryOrigin [(k, v)] = false := by
  simp [hasVaryOrigin, hk]

/-- Headers.set under a key other than Vary preserves the absence of a
Vary: Origin entry. -/
theorem hasVaryOrigin_hSet (l : HeaderList) (k v : String)
    (hl : hasVaryOrigin l = false) (hk : asciiLower k ≠ "vary") :
    hasVaryOrigin (hSet l k v) = false := by
  unfold hSet
  rw [hasVaryOrigin_append, hasVaryOrigin_filter _ _ hl, hasVaryOrigin_single _ _ hk]
  rfl

/-- The withCORS wrapper appends a Vary: Origin entry exactly when the
resolved origin is not the wildcard, provided the wrapped response carried
none. -/
theorem hasVaryOrigin_withCORS (r : Response) (o : String)
    (hr : hasVaryOrigin r.headers = false) :
    hasVaryOrigin (Mirror.withCORS r o).headers = decide (o ≠ "*") := by
  unfold Mirror.withCORS
  simp only
  have h1 := hasVaryOrigin_hSet r.headers "Access-Control-Allow-Origin" o hr (by decide)
  have h2 := hasVaryOrigin_hSet _ "Access-Control-Allow-Headers"
    "Content-Type, Authorization" h1 (by decide)
  have h3 := hasVaryOrigin_hSet _ "Access-Control-Allow-Methods"
    "GET, POST, OPTIONS" h2 (by decide)
  by_cases ho : o ≠ "*"
  · rw [if_pos ho, hasVaryOrigin_append, h3]
    rw [show hasVaryOrigin [("Vary", "Origin")] = true from by decide]
    simp [ho]
  · rw [if_neg ho, h3]
    simp [ho]

/-- Every final response of the path-mirroring handler carries the resolved
origin in Access-Control-Allow-Origin, whatever the upstream does. -/
theorem finalResponse_acao (parse : String → Option Json) (env : Mirror.Env)
    (req : Request) (upstream : OutboundRequest → Response) :
    hGet (Mirror.finalResponse parse env req upstream).headers
      "Access-Control-Allow-Origin" = some (Mirror.pickOrigin req env) := by
  unfold Mirror.finalResponse
  cases hroute : Mirror.route parse env req with
  | respond r =>
    rcases mirror_route_respond_cases parse env req r hroute with h | h | h | h | h <;>
      (subst h; exact hGet_withCORS_acao _ _)
  | proxy o =>
    exact hGet_withCORS_acao _ _

/-- Every worker-generated (non-proxied) response of the path-mirroring
handler carries a Vary: Origin entry exactly when the resolved origin is not
the wildcard. -/
theorem route_respond_vary (parse : String → Option Json) (env : Mirror.Env)
    (req : Request) (r : Response)
    (h : Mirror.route parse env req = RouteResult.respond r) :
    hasVaryOrigin r.headers = decide (Mirror.pickOrigin req env ≠ "*") := by
  rcases mirror_route_respond_cases parse env req r h with hc | hc | hc | hc | hc <;> subst hc
  · exact hasVaryOrigin_withCORS _ _
      (show hasVaryOrigin [("Content-Type", "application/json")] = false from by decide)
  · exact hasVaryOrigin_withCORS _ _
      (show hasVaryOrigin ([] : HeaderList) = false from by decide)
  · exact hasVaryOrigin_withCORS _ _
      (show hasVaryOrigin ([] : HeaderList) = false from by decide)
  · exact hasVaryOrigin_withCORS _ _
      (show hasVaryOrigin [("Content-Type", "application/json")] = false from by decide)
  · exact hasVaryOrigin_withCORS _ _
      (show hasVaryOrigin [("Content-Type", "application/json")] = false from by decide)

/-- Resolution of the CORS origin as the specification words it: echo the
request origin when the allowlist is non-empty and contains it, else the first
entry of a non-empty allowlist, else the wildcard. Stated as a second
definition, to be compared with pickOrigin from the code. -/
def specOrigin (allowlist : List String) (reqOrigin : Option String) : String :=
  match reqOrigin with
  | some o => if o ∈ allowlist then o else allowlist.headD "*"
  | none => allowlist.headD "*"

/-- The code resolution of the CORS origin agrees with the specification
wording on every configuration, because a parsed allowlist never holds the
empty string. -/
theorem pickOrigin_eq_specOrigin (req : Request) (env : Mirror.Env) :
    Mirror.pickOrigin req env =
      specOrigin (Mirror.csv env.CORS_ORIGINS) (hGet req.headers "Origin") := by
  unfold Mirror.pickOrigin specOrigin
  cases hro : hGet req.headers "Origin" with
  | none =>
    cases hl : Mirror.csv env.CORS_ORIGINS with
    | nil => simp [truthyStr]
    | cons a t =>
      have ha : a ≠ "" := csv_mem_ne_empty _ _ (hl ▸ List.mem_cons_self a t)
      simp [truthyStr, ha]
  | some ro =>
    by_cases hre : ro = ""
    · subst hre
      cases hl : Mirror.csv env.CORS_ORIGINS with
      | nil => simp [truthyStr]
      | cons a t =>
        have ha : a ≠ "" := csv_mem_ne_empty _ _ (hl ▸ List.mem_cons_self a t)
        have hnm : ¬ ("" ∈ a :: t) := hl ▸ empty_not_mem_csv env.CORS_ORIGINS
        simp [truthyStr, ha, hnm]
    · cases hl : Mirror.csv env.CORS_ORIGINS with
      | nil => simp [truthyStr]
      | cons a t =>
        have ha : a ≠ "" := csv_mem_ne_empty _ _ (hl ▸ List.mem_cons_self a t)
        by_cases hmem : ro ∈ a :: t
        · simp [truthyStr, hre, hmem, (contains_iff_mem_str (a :: t) ro).mpr hmem]
        · have hcont : (a :: t).contains ro = false := by
            cases hc : (a :: t).contains ro with
            | false => rfl
            | true => exact absurd ((contains_iff_mem_str _ _).mp hc) hmem
          simp [truthyStr, hre, hmem, hcont, ha]

/-- Concrete configuration with every allowlist unset. -/
def envSimple : Mirror.Env := Mirror.Env.mk "secret" none none none

/-- Concrete GET request to an allowed path without headers. -/
def reqGet : Request := Request.mk "GET" "/openai/v1/models" "" [] none

/-- C2 (amended): for every proxied request of the path-mirroring variant,
the outbound Authorization header is the injected bearer credential whatever
the caller sent, the Host header is absent, and the outbound Content-Type is
the incoming one when it was set to a non-empty value and application/json
when it was unset or set to the empty string. -/
theorem C2_mirror_outbound_headers (parse : String → Option Json) (env : Mirror.Env)
    (req : Request) (o : OutboundRequest)
    (h : Mirror.route parse env req = RouteResult.proxy o) :
    hGet o.headers "Authorization" = some ("Bearer " ++ env.GROQ_API_KEY)
    ∧ hGet o.headers "Host" = none
    ∧ (∀ ct, hGet req.headers "Content-Type" = some ct → ct ≠ "" →
        hGet o.headers "Content-Type" = some ct)
    ∧ ((hGet req.headers "Content-Type" = none ∨
        hGet req.headers "Content-Type" = some "") →
        hGet o.headers "Content-Type" = some "application/json") := by
  have ho := (mirror_route_proxy_shape parse env req o h).1
  rw [ho]
  refine ⟨hGet_proxyHeaders_auth env req, hGet_proxyHeaders_host env req, ?_, ?_⟩
  · intro ct hct hctne
    rw [hGet_proxyHeaders_ct, hct]
    simp [jsOr, hctne]
  · rintro (hct | hct) <;> rw [hGet_proxyHeaders_ct, hct] <;> simp [jsOr]

/-- Concrete GET request to an allowed path carrying an empty Content-Type. -/
def reqEmptyCT : Request :=
  Request.mk "GET" "/openai/v1/models" "" [("Content-Type", "")] none

/-- Counterexample to C2 as stated: with an incoming Content-Type set to the
empty string, the outbound Content-Type is application/json and not the
incoming value. -/
theorem C2_counterexample :
    hGet reqEmptyCT.headers "Content-Type" = some ""
    ∧ (Mirror.route parseNone envSimple reqEmptyCT).outHeaders.map
        (fun h => hGet h "Content-Type") = some (some "application/json") := by
  decide

/-- Concrete outbound request of the plain GET. -/
def outGet : OutboundRequest :=
  OutboundRequest.mk "https://api.groq.com/openai/v1/models" "GET"
    (Mirror.proxyHeaders envSimple reqGet) (Mirror.outBody "GET" none)

/-- Witness for C2 at a concrete proxied request. -/
theorem C2_witness :
    Mirror.route parseNone envSimple reqGet = RouteResult.proxy outGet
    ∧ (hGet outGet.headers "Authorization" = some ("Bearer " ++ envSimple.GROQ_API_KEY)
       ∧ hGet outGet.headers "Host" = none
       ∧ (∀ ct, hGet reqGet.headers "Content-Type" = some ct → ct ≠ "" →
           hGet outGet.headers "Content-Type" = some ct)
       ∧ ((hGet reqGet.headers "Content-Type" = none ∨
           hGet reqGet.headers "Content-Type" = some "") →
           hGet outGet.headers "Content-Type" = some "application/json")) :=
  ⟨by decide, C2_mirror_outbound_headers parseNone envSimple reqGet outGet (by decide)⟩

/-- C3 (amended): in the path-mirroring variant, for every non-OPTIONS request
whose path is not the health path, proxying occurs only when the path equals
or starts with a member of the path allowlist; a path outside the allowlist is
answered 404 without upstream contact; an allowed path is always proxied when
the request skips body inspection (non-POST method, or an effective
Content-Type that does not indicate JSON), and a POST with a JSON
Content-Type is proxied unless the body inspection rejects it with 400
(invalid JSON) or 403 (model not allowed). -/
theorem C3_mirror_path_allowlist (parse : String → Option Json) (env : Mirror.Env)
    (req : Request)
    (hph : req.pathname ≠ "/health") (hopt : req.method ≠ "OPTIONS") :
    ((∃ o, Mirror.route parse env req = RouteResult.proxy o) →
        Mirror.allowedPath req.pathname env = true)
    ∧ (Mirror.allowedPath req.pathname env = false →
        Mirror.route parse env req =
          RouteResult.respond (Mirror.notFoundResponse (Mirror.pickOrigin req env)))
    ∧ (Mirror.allowedPath req.pathname env = true → req.method ≠ "POST" →
        Mirror.route parse env req = RouteResult.proxy (OutboundRequest.mk
          (Mirror.UPSTREAM_ORIGIN ++ req.pathname ++ req.search) req.method
          (Mirror.proxyHeaders env req) (Mirror.outBody req.method none)))
    ∧ (Mirror.allowedPath req.pathname env = true → req.method = "POST" →
        strIncludes (jsOr (hGet (Mirror.proxyHeaders env req) "Content-Type") "")
          "application/json" = false →
        Mirror.route parse env req = RouteResult.proxy (OutboundRequest.mk
          (Mirror.UPSTREAM_ORIGIN ++ req.pathname ++ req.search) req.method
          (Mirror.proxyHeaders env req) (Mirror.outBody req.method req.body)))
    ∧ (Mirror.allowedPath req.pathname env = true → req.method = "POST" →
        strIncludes (jsOr (hGet (Mirror.proxyHeaders env req) "Content-Type") "")
          "application/json" = true →
        ((∃ o, Mirror.route parse env req = RouteResult.proxy o)
         ∨ Mirror.route parse env req =
             RouteResult.respond (Mirror.invalidJsonResponse (Mirror.pickOrigin req env))
         ∨ Mirror.route parse env req =
             RouteResult.respond (Mirror.modelNotAllowedResponse
               (Mirror.csv env.ALLOW_MODELS) (Mirror.pickOrigin req env)))) := by
  refine ⟨?_, ?_, ?_, ?_, ?_⟩
  · rintro ⟨o, ho⟩
    cases hap : Mirror.allowedPath req.pathname env with
    | true => rfl
    | false =>
      rw [route_not_allowed parse env req hph hopt hap] at ho
      exact absurd ho (by simp)
  · intro hap
    exact route_not_allowed parse env req hph hopt hap
  · intro hap hpost
    exact route_non_post parse env req hph hopt hap hpost
  · intro hap hm hctj
    exact route_post_nonjson parse env req hph hm hap hctj
  · intro hap hm hctj
    have hroute := route_post_json parse env req hph hm hap hctj
    cases hpj : (if req.body.getD "" = "" then some (Json.obj [])
        else parse (req.body.getD "")) with
    | none =>
      rw [hpj] at hroute
      exact Or.inr (Or.inl hroute)
    | some j =>
      rw [hpj] at hroute
      by_cases hL : Mirror.csv env.ALLOW_MODELS = []
      · simp only [hL, ne_eq, not_true_eq_false, if_false] at hroute
        exact Or.inl ⟨_, hroute⟩
      · by_cases hrej : Mirror.requestedModel j = "" ∨
            (Mirror.csv env.ALLOW_MODELS).contains (Mirror.requestedModel j) = false
        · simp only [hL, ne_eq, not_false_eq_true, if_true, if_pos hrej] at hroute
          exact Or.inr (Or.inr hroute)
        · simp only [hL, ne_eq, not_false_eq_true, if_true, if_neg hrej] at hroute
          exact Or.inl ⟨_, hroute⟩

/-- Concrete JSON POST to an allowed path whose body does not parse. -/
def reqBadJson : Request :=
  Request.mk "POST" "/openai/v1/models" ""
    [("Content-Type", "application/json")] (some "not json")

/-- Counterexample to C3 as stated: an allowed path is not proxied when the
JSON body fails to parse; the route answers 400 instead of reaching the
upstream. -/
theorem C3_counterexample :
    Mirror.allowedPath reqBadJson.pathname envSimple = true
    ∧ (Mirror.route parseNone envSimple reqBadJson).respondStatus = some 400
    ∧ (Mirror.route parseNone envSimple reqBadJson).outHeaders = none := by
  decide

/-- Witness for C3 at a concrete non-POST request. -/
theorem C3_witness :
    reqGet.pathname ≠ "/health" ∧ reqGet.method ≠ "OPTIONS"
    ∧ (Mirror.allowedPath reqGet.pathname envSimple = true →
        reqGet.method ≠ "POST" →
        Mirror.route parseNone envSimple reqGet = RouteResult.proxy (OutboundRequest.mk
          (Mirror.UPSTREAM_ORIGIN ++ reqGet.pathname ++ reqGet.search) reqGet.method
          (Mirror.proxyHeaders envSimple reqGet) (Mirror.outBody reqGet.method none))) :=
  ⟨by decide, by decide,
   (C3_mirror_path_allowlist parseNone envSimple reqGet (by decide) (by decide)).2.2.1⟩

/-- C4 (amended): for every request of the path-mirroring variant, the
resolved CORS origin follows the specified resolution (echo a listed request
origin, else the first entry of a non-empty allowlist, else the wildcard), the
final response always carries it in Access-Control-Allow-Origin, and the CORS
layer appends a Vary: Origin entry exactly when the resolved origin is not
the wildcard: worker-generated responses carry Vary: Origin iff the origin is
not the wildcard, and proxied responses do so as well whenever the upstream
answer itself carried no Vary: Origin entry. -/
theorem C4_cors_origin (parse : String → Option Json) (env : Mirror.Env)
    (req : Request) (upstream : OutboundRequest → Response) :
    Mirror.pickOrigin req env =
      specOrigin (Mirror.csv env.CORS_ORIGINS) (hGet req.headers "Origin")
    ∧ hGet (Mirror.finalResponse parse env req upstream).headers
        "Access-Control-Allow-Origin" = some (Mirror.pickOrigin req env)
    ∧ (∀ r, Mirror.route parse env req = RouteResult.respond r →
        hasVaryOrigin r.headers = decide (Mirror.pickOrigin req env ≠ "*"))
    ∧ (∀ o, Mirror.route parse env req = RouteResult.proxy o →
        hasVaryOrigin (upstream o).headers = false →
        hasVaryOrigin (Mirror.finalResponse parse env req upstream).headers =
          decide (Mirror.pickOrigin req env ≠ "*")) := by
  refine ⟨pickOrigin_eq_specOrigin req env, finalResponse_acao parse env req upstream,
    route_respond_vary parse env req, ?_⟩
  intro o ho hup
  unfold Mirror.finalResponse
  rw [ho]
  exact hasVaryOrigin_withCORS _ _ hup

/-- Upstream oracle answering with a Vary: Origin header of its own. -/
def upVary : OutboundRequest → Response :=
  fun _ => Response.mk 200 [("Vary", "Origin")] (some "data")

/-- Counterexample to C4 as stated: with an empty origin allowlist the
resolved origin is the wildcard, yet the final response of a proxied request
carries a Vary: Origin entry, inherited from the upstream answer. -/
theorem C4_counterexample :
    Mirror.pickOrigin reqGet envSimple = "*"
    ∧ hasVaryOrigin (Mirror.finalResponse parseNone envSimple reqGet upVary).headers
        = true := by
  decide

/-- Configuration with a one-entry origin allowlist. -/
def envGood : Mirror.Env :=
  Mirror.Env.mk "secret" none none (some "https://good.com")

/-- Preflight request from an origin outside the allowlist. -/
def reqEvil : Request :=
  Request.mk "OPTIONS" "/x" "" [("Origin", "https://evil.com")] none

/-- Upstream oracle never consulted by the preflight witness. -/
def upPlain : OutboundRequest → Response :=
  fun _ => Response.mk 200 [] none

/-- Witness for C4: the spec example, a request with an unlisted origin
against a one-entry allowlist resolves to the allowlist entry, and the
worker-generated preflight response carries Vary: Origin. -/
theorem C4_witness :
    Mirror.route parseNone envGood reqEvil =
      RouteResult.respond (Mirror.preflightResponse (Mirror.pickOrigin reqEvil envGood))
    ∧ Mirror.pickOrigin reqEvil envGood = "https://good.com"
    ∧ Mirror.pickOrigin reqEvil envGood =
        specOrigin (Mirror.csv envGood.CORS_ORIGINS) (hGet reqEvil.headers "Origin")
    ∧ hasVaryOrigin (Mirror.preflightResponse (Mirror.pickOrigin reqEvil envGood)).headers
        = decide (Mirror.pickOrigin reqEvil envGood ≠ "*") :=
  ⟨by decide, by decide,
   (C4_cors_origin parseNone envGood reqEvil upPlain).1,
   (C4_cors_origin parseNone envGood reqEvil upPlain).2.2.1 _ (by decide)⟩

/-- A respond outcome of the fixed-endpoint routing phase is one of the six
worker-generated responses. -/
theorem fixed_route_respond_cases (parse : String → Option Json) (env : Fixed.Env)
    (req : Request) (r : Response)
    (h : Fixed.route parse env req = RouteResult.respond r) :
    r = Fixed.corsPreflight
    ∨ r = Fixed.json (Json.obj [("ok", Json.bool true)]) 200
    ∨ r = Response.mk 404 [] (some "Not found")
    ∨ r = Response.mk 405 [] (some "Method Not Allowed")
    ∨ r = Fixed.json (Json.obj [("error", Json.str "Invalid JSON")]) 400
    ∨ r = Fixed.json (Json.obj
        [("error", Json.str "Missing \x27user\x27 (string) in body")]) 400 := by
  simp only [Fixed.route] at h
  repeat' split at h
  all_goals cases h <;> simp

/-- The fixed preflight response carries the fixed CORS origin. -/
theorem hGet_fixed_preflight_acao :
    hGet Fixed.corsPreflight.headers "Access-Control-Allow-Origin" =
      some Fixed.CORS_ORIGIN := by
  decide

/-- Responses built by the fixed-endpoint json helper always carry the fixed
CORS origin. -/
theorem hGet_fixed_json_acao (d : Json) (s : Nat) :
    hGet (Fixed.json d s).headers "Access-Control-Allow-Origin" =
      some Fixed.CORS_ORIGIN := by
  rfl

/-- Every answer of the fixed-endpoint relay phase carries the fixed CORS
origin. -/
theorem fixed_relay_acao (up : Fixed.UpstreamResponse) :
    hGet (Fixed.relay up).headers "Access-Control-Allow-Origin" =
      some Fixed.CORS_ORIGIN := by
  unfold Fixed.relay
  split
  · exact hGet_fixed_json_acao _ _
  · rfl

/-- C5 (amended): every error response of the path-mirroring variant carries
Access-Control-Allow-Origin (as does every other response: the header always
holds the resolved origin); in the fixed-endpoint variant every response
carries the fixed origin except the 404 Not found and 405 Method Not Allowed
responses, which carry no CORS headers at all. -/
theorem C5_error_responses_cors (parse : String → Option Json) (env : Mirror.Env)
    (req : Request) (upstream : OutboundRequest → Response)
    (parseF : String → Option Json) (envF : Fixed.Env) (reqF : Request)
    (upstreamF : OutboundRequest → Fixed.UpstreamResponse) :
    hGet (Mirror.finalResponse parse env req upstream).headers
      "Access-Control-Allow-Origin" = some (Mirror.pickOrigin req env)
    ∧ (hGet (Fixed.finalResponse parseF envF reqF upstreamF).headers
         "Access-Control-Allow-Origin" = some Fixed.CORS_ORIGIN
       ∨ Fixed.finalResponse parseF envF reqF upstreamF =
           Response.mk 404 [] (some "Not found")
       ∨ Fixed.finalResponse parseF envF reqF upstreamF =
           Response.mk 405 [] (some "Method Not Allowed")) := by
  refine ⟨finalResponse_acao parse env req upstream, ?_⟩
  unfold Fixed.finalResponse
  cases hroute : Fixed.route parseF envF reqF with
  | respond r =>
    rcases fixed_route_respond_cases parseF envF reqF r hroute
      with hc | hc | hc | hc | hc | hc <;> subst hc
    · exact Or.inl hGet_fixed_preflight_acao
    · exact Or.inl (hGet_fixed_json_acao _ _)
    · exact Or.inr (Or.inl rfl)
    · exact Or.inr (Or.inr rfl)
    · exact Or.inl (hGet_fixed_json_acao _ _)
    · exact Or.inl (hGet_fixed_json_acao _ _)
  | proxy o =>
    exact Or.inl (fixed_relay_acao (upstreamF o))

/-- Request outside the fixed endpoint. -/
def reqF404 : Request := Request.mk "GET" "/nope" "" [] none

/-- Upstream oracle never consulted in the fixed 404 counterexample. -/
def upF200 : OutboundRequest → Fixed.UpstreamResponse :=
  fun _ => Fixed.UpstreamResponse.mk 200 (some "data") false

/-- Counterexample to C5 as stated: the fixed-endpoint 404 PathNotAllowed
response carries no Access-Control-Allow-Origin header. -/
theorem C5_counterexample :
    (Fixed.finalResponse parseNone (Fixed.Env.mk "secret") reqF404 upF200).status = 404
    ∧ hGet (Fixed.finalResponse parseNone (Fixed.Env.mk "secret") reqF404 upF200).headers
        "Access-Control-Allow-Origin" = none := by
  decide

/-- C6 (amended): in the path-mirroring variant, every OPTIONS request whose
path is not the health path is answered 204 with no body and the CORS
headers, without contacting the upstream (for OPTIONS to the health path the
health check takes priority and answers 200). -/
theorem C6_options_preflight (parse : String → Option Json) (env : Mirror.Env)
    (req : Request)
    (hopt : req.method = "OPTIONS") (hph : req.pathname ≠ "/health") :
    Mirror.route parse env req =
      RouteResult.respond (Mirror.preflightResponse (Mirror.pickOrigin req env))
    ∧ (Mirror.preflightResponse (Mirror.pickOrigin req env)).status = 204
    ∧ (Mirror.preflightResponse (Mirror.pickOrigin req env)).body = none
    ∧ hGet (Mirror.preflightResponse (Mirror.pickOrigin req env)).headers
        "Access-Control-Allow-Origin" = some (Mirror.pickOrigin req env) := by
  refine ⟨?_, rfl, rfl, hGet_withCORS_acao _ _⟩
  simp only [Mirror.route, if_neg hph, hopt]
  simp

/-- Counterexample to C6 as stated: an OPTIONS request to the health path is
answered by the health check with status 200, not 204. -/
theorem C6_counterexample :
    (Mirror.route parseNone envSimple
      (Request.mk "OPTIONS" "/health" "" [] none)).respondStatus = some 200 := by
  decide

/-- Witness for C6 at a concrete preflight request. -/
theorem C6_witness :
    (Request.mk "OPTIONS" "/x" "" [] none).method = "OPTIONS"
    ∧ (Request.mk "OPTIONS" "/x" "" [] none).pathname ≠ "/health"
    ∧ Mirror.route parseNone envSimple (Request.mk "OPTIONS" "/x" "" [] none) =
        RouteResult.respond (Mirror.preflightResponse
          (Mirror.pickOrigin (Request.mk "OPTIONS" "/x" "" [] none) envSimple)) :=
  ⟨rfl, by decide,
   (C6_options_preflight parseNone envSimple (Request.mk "OPTIONS" "/x" "" [] none)
     rfl (by decide)).1⟩

/-- Characterization of the fixed-endpoint routing phase on a POST to the
chat endpoint. -/
theorem fixed_route_chat_post (parse : String → Option Json) (env : Fixed.Env)
    (req : Request)
    (hm : req.method = "POST") (hp : req.pathname = "/chat") :
    Fixed.route parse env req =
      match parse (req.body.getD "") with
      | none => RouteResult.respond
          (Fixed.json (Json.obj [("error", Json.str "Invalid JSON")]) 400)
      | some parsed =>
        if Fixed.userOk (jsGet (if parsed.isNull then Json.obj [] else parsed) "user")
            = false then
          RouteResult.respond (Fixed.json (Json.obj
            [("error", Json.str "Missing \x27user\x27 (string) in body")]) 400)
        else
          RouteResult.proxy (OutboundRequest.mk
            "https://api.groq.com/openai/v1/chat/completions" "POST"
            [("Authorization", "Bearer " ++ env.GROQ_API_KEY),
             ("Content-Type", "application/json")]
            (some (Json.stringify (Fixed.buildPayload
              (if parsed.isNull then Json.obj [] else parsed))))) := by
  have h1 : req.method ≠ "OPTIONS" := by rw [hm]; decide
  have h2 : req.pathname ≠ "/health" := by rw [hp]; decide
  have h3 : ¬ (req.pathname ≠ "/chat") := by rw [hp]; simp
  have h4 : ¬ (req.method ≠ "POST") := by rw [hm]; simp
  simp only [Fixed.route, if_neg h1, if_neg h2, if_neg h3, if_neg h4]

/-- C7: a POST to the fixed chat endpoint whose JSON body holds only a user
string and no model is forwarded with the default model identifier, the
two-element system/user message list, max_completion_tokens 1024, temperature
1, top_p 1, stream true and no stop key. -/
theorem C7_fixed_default_payload (parse : String → Option Json) (env : Fixed.Env)
    (req : Request)
    (hm : req.method = "POST") (hp : req.pathname = "/chat")
    (hpj : parse (req.body.getD "") = some (Json.obj [("user", Json.str "hi")])) :
    Fixed.route parse env req = RouteResult.proxy (OutboundRequest.mk
      "https://api.groq.com/openai/v1/chat/completions" "POST"
      [("Authorization", "Bearer " ++ env.GROQ_API_KEY),
       ("Content-Type", "application/json")]
      (some (Json.stringify (Fixed.buildPayload (Json.obj [("user", Json.str "hi")])))))
    ∧ jsGet (Fixed.buildPayload (Json.obj [("user", Json.str "hi")])) "model"
        = some (Json.str "llama-3.1-8b-instant")
    ∧ jsGet (Fixed.buildPayload (Json.obj [("user", Json.str "hi")])) "messages"
        = some (Json.arr
            [Json.obj [("role", Json.str "system"),
                       ("content", Json.str "You are a helpful assistant.")],
             Json.obj [("role", Json.str "user"), ("content", Json.str "hi")]])
    ∧ jsGet (Fixed.buildPayload (Json.obj [("user", Json.str "hi")]))
        "max_completion_tokens" = some (Json.num 1024)
    ∧ jsGet (Fixed.buildPayload (Json.obj [("user", Json.str "hi")])) "temperature"
        = some (Json.num 1)
    ∧ jsGet (Fixed.buildPayload (Json.obj [("user", Json.str "hi")])) "top_p"
        = some (Json.num 1)
    ∧ jsGet (Fixed.buildPayload (Json.obj [("user", Json.str "hi")])) "stream"
        = some (Json.bool true)
    ∧ jsGet (Fixed.buildPayload (Json.obj [("user", Json.str "hi")])) "stop"
        = none := by
  refine ⟨?_, rfl, rfl, rfl, rfl, rfl, rfl, rfl⟩
  rw [fixed_route_chat_post parse env req hm hp, hpj]
  rfl

/-- A JSON.parse oracle for the one-field user body. -/
def parseHi : String → Option Json :=
  fun s => if s = "\x7b\"user\":\"hi\"\x7d"
    then some (Json.obj [("user", Json.str "hi")]) else none

/-- A concrete POST of the user-only body to the chat endpoint. -/
def reqHi : Request :=
  Request.mk "POST" "/chat" "" [("Content-Type", "application/json")]
    (some "\x7b\"user\":\"hi\"\x7d")

/-- Witness for C7 at the concrete user-only chat request. -/
theorem C7_witness :
    reqHi.method = "POST" ∧ reqHi.pathname = "/chat"
    ∧ parseHi (reqHi.body.getD "") = some (Json.obj [("user", Json.str "hi")])
    ∧ Fixed.route parseHi (Fixed.Env.mk "secret") reqHi =
        RouteResult.proxy (OutboundRequest.mk
          "https://api.groq.com/openai/v1/chat/completions" "POST"
          [("Authorization", "Bearer " ++ (Fixed.Env.mk "secret").GROQ_API_KEY),
           ("Content-Type", "application/json")]
          (some (Json.stringify (Fixed.buildPayload (Json.obj [("user", Json.str "hi")]))))) :=
  ⟨rfl, rfl, rfl,
   (C7_fixed_default_payload parseHi (Fixed.Env.mk "secret") reqHi rfl rfl rfl).1⟩

/-- C8: in the fixed-endpoint variant, an upstream answer with a non-success
status or without a body is re-enveloped as JSON under the upstream status,
with the upstream text truncated to 2000 characters as details; a successful
answer with a body is passed through under status 200 with event-stream
headers. -/
theorem C8_fixed_upstream_relay (up : Fixed.UpstreamResponse)
    (ht : up.textThrows = false) :
    ((Fixed.respOk up = false ∨ up.body = none) →
      Fixed.relay up = Fixed.json (Json.obj
        [("error", Json.str "Upstream Groq error"),
         ("status", Json.num (up.status : Int)),
         ("details", Json.str (jsSlice (up.body.getD "") 2000))]) up.status
      ∧ (Fixed.relay up).status = up.status)
    ∧ (∀ b, Fixed.respOk up = true → up.body = some b →
        Fixed.relay up = Response.mk 200
          [("Content-Type", "text/event-stream"),
           ("Cache-Control", "no-cache"),
           ("Connection", "keep-alive"),
           ("Access-Control-Allow-Origin", Fixed.CORS_ORIGIN),
           ("Access-Control-Allow-Headers", "Content-Type, Authorization"),
           ("Access-Control-Allow-Methods", "POST, OPTIONS")] (some b)) := by
  constructor
  · intro hcond
    have hrel : Fixed.relay up = Fixed.json (Json.obj
        [("error", Json.str "Upstream Groq error"),
         ("status", Json.num (up.status : Int)),
         ("details", Json.str (jsSlice (up.body.getD "") 2000))]) up.status := by
      unfold Fixed.relay
      rw [if_pos hcond, ht]
      rfl
    exact ⟨hrel, by rw [hrel]; rfl⟩
  · intro b hok hb
    unfold Fixed.relay
    rw [if_neg (by simp [hok, hb]), hb]

/-- A concrete failing upstream answer. -/
def upFail : Fixed.UpstreamResponse := Fixed.UpstreamResponse.mk 500 (some "oops") false

/-- Witness for C8 at a concrete failing upstream answer. -/
theorem C8_witness :
    upFail.textThrows = false
    ∧ (((Fixed.respOk upFail = false ∨ upFail.body = none) →
        Fixed.relay upFail = Fixed.json (Json.obj
          [("error", Json.str "Upstream Groq error"),
           ("status", Json.num (upFail.status : Int)),
           ("details", Json.str (jsSlice (upFail.body.getD "") 2000))]) upFail.status
        ∧ (Fixed.relay upFail).status = upFail.status)
       ∧ (∀ b, Fixed.respOk upFail = true → upFail.body = some b →
           Fixed.relay upFail = Response.mk 200
             [("Content-Type", "text/event-stream"),
              ("Cache-Control", "no-cache"),
              ("Connection", "keep-alive"),
              ("Access-Control-Allow-Origin", Fixed.CORS_ORIGIN),
              ("Access-Control-Allow-Headers", "Content-Type, Authorization"),
              ("Access-Control-Allow-Methods", "POST, OPTIONS")] (some b))) :=
  ⟨rfl, C8_fixed_upstream_relay upFail rfl⟩

/-- The effective Content-Type of a proxied request indicates JSON whenever
the incoming one was set, non-empty and indicated JSON. -/
theorem effective_ct_json (env : Mirror.Env) (req : Request) (ct : String)
    (hct : hGet req.headers "Content-Type" = some ct) (hctne : ct ≠ "")
    (hctj : strIncludes ct "application/json" = true) :
    strIncludes (jsOr (hGet (Mirror.proxyHeaders env req) "Content-Type") "")
      "application/json" = true := by
  rw [hGet_proxyHeaders_ct, hct]
  simpa [jsOr, hctne] using hctj

/-- C9: in the path-mirroring variant, a JSON POST with a zero-length body is
never answered 400 Invalid JSON: the body counts as the empty JSON object, so
a non-empty model allowlist yields the 403 model response and an empty
allowlist forwards the request upstream with the serialized empty object as
body. -/
theorem C9_mirror_empty_body (parse : String → Option Json) (env : Mirror.Env)
    (req : Request)
    (hph : req.pathname ≠ "/health") (hm : req.method = "POST")
    (hap : Mirror.allowedPath req.pathname env = true)
    (ct : String) (hct : hGet req.headers "Content-Type" = some ct)
    (hctne : ct ≠ "") (hctj : strIncludes ct "application/json" = true)
    (hraw : req.body.getD "" = "") :
    (Mirror.route parse env req).respondStatus ≠ some 400
    ∧ (Mirror.csv env.ALLOW_MODELS ≠ [] →
        Mirror.route parse env req = RouteResult.respond
          (Mirror.modelNotAllowedResponse (Mirror.csv env.ALLOW_MODELS)
            (Mirror.pickOrigin req env)))
    ∧ (Mirror.csv env.ALLOW_MODELS = [] →
        Mirror.route parse env req = RouteResult.proxy (OutboundRequest.mk
          (Mirror.UPSTREAM_ORIGIN ++ req.pathname ++ req.search) req.method
          (Mirror.proxyHeaders env req) (some "\x7b\x7d"))) := by
  have hroute := route_post_json parse env req hph hm hap
    (effective_ct_json env req ct hct hctne hctj)
  rw [hraw] at hroute
  simp only [reduceIte] at hroute
  rw [show Mirror.requestedModel (Json.obj []) = "" from rfl] at hroute
  have hout : Mirror.outBody req.method (some (Json.stringify (Json.obj []))) =
      some "\x7b\x7d" := by
    unfold Mirror.outBody
    rw [if_neg (by rw [hm]; decide)]
    rfl
  by_cases hL : Mirror.csv env.ALLOW_MODELS = []
  · simp only [hL, ne_eq, not_true_eq_false, if_false] at hroute
    rw [hout] at hroute
    refine ⟨?_, fun hc => absurd hL hc, fun _ => hroute⟩
    rw [hroute]
    simp [RouteResult.respondStatus]
  · simp only [hL, ne_eq, not_false_eq_true, if_true, true_or, if_pos] at hroute
    refine ⟨?_, fun _ => hroute, fun hc => absurd hc hL⟩
    rw [hroute]
    simp [RouteResult.respondStatus, Mirror.modelNotAllowedResponse, Mirror.withCORS]

/-- Concrete zero-length JSON POST against a non-empty model allowlist. -/
def reqEmptyBody : Request :=
  Request.mk "POST" "/openai/v1/chat/completions" ""
    [("Content-Type", "application/json")] (some "")

/-- Witness for C9 at the concrete zero-length-body request. -/
theorem C9_witness :
    reqEmptyBody.pathname ≠ "/health" ∧ reqEmptyBody.method = "POST"
    ∧ Mirror.allowedPath reqEmptyBody.pathname envSimple = true
    ∧ hGet reqEmptyBody.headers "Content-Type" = some "application/json"
    ∧ reqEmptyBody.body.getD "" = ""
    ∧ (Mirror.csv envSimple.ALLOW_MODELS = [] →
        Mirror.route parseNone envSimple reqEmptyBody = RouteResult.proxy
          (OutboundRequest.mk
            (Mirror.UPSTREAM_ORIGIN ++ reqEmptyBody.pathname ++ reqEmptyBody.search)
            reqEmptyBody.method (Mirror.proxyHeaders envSimple reqEmptyBody)
            (some "\x7b\x7d"))) :=
  ⟨by decide, by decide, by decide, by decide, rfl,
   (C9_mirror_empty_body parseNone envSimple reqEmptyBody (by decide) (by decide)
     (by decide) "application/json" (by decide) (by decide) (by decide) rfl).2.2⟩

/-- C10: in the fixed-endpoint variant, a POST to the chat endpoint whose
parsed body holds a user field that is the empty string is rejected 400 with
the missing-user error, exactly as when the field is absent, and the upstream
is never contacted. -/
theorem C10_fixed_empty_user (parse : String → Option Json) (env : Fixed.Env)
    (req : Request) (j : Json)
    (hm : req.method = "POST") (hp : req.pathname = "/chat")
    (hpj : parse (req.body.getD "") = some j)
    (hu : jsGet j "user" = some (Json.str "") ∨ jsGet j "user" = none) :
    Fixed.route parse env req = RouteResult.respond
      (Fixed.json (Json.obj
        [("error", Json.str "Missing \x27user\x27 (string) in body")]) 400) := by
  have huser : Fixed.userOk (jsGet (if j.isNull then Json.obj [] else j) "user")
      = false := by
    cases hn : j.isNull with
    | true => simp [jsGet, Fixed.userOk]
    | false =>
      simp only [Bool.false_eq_true, if_false]
      rcases hu with h | h <;> simp [Fixed.userOk, h]
  rw [fixed_route_chat_post parse env req hm hp, hpj]
  simp only [huser, if_pos]

/-- A JSON.parse oracle for the empty-user body. -/
def parseEmptyUser : String → Option Json :=
  fun s => if s = "\x7b\"user\":\"\"\x7d"
    then some (Json.obj [("user", Json.str "")]) else none

/-- A concrete POST of the empty-user body to the chat endpoint. -/
def reqEmptyUser : Request :=
  Request.mk "POST" "/chat" "" [("Content-Type", "application/json")]
    (some "\x7b\"user\":\"\"\x7d")

/-- Witness for C10 at the concrete empty-user chat request. -/
theorem C10_witness :
    reqEmptyUser.method = "POST" ∧ reqEmptyUser.pathname = "/chat"
    ∧ parseEmptyUser (reqEmptyUser.body.getD "")
        = some (Json.obj [("user", Json.str "")])
    ∧ Fixed.route parseEmptyUser (Fixed.Env.mk "secret") reqEmptyUser =
        RouteResult.respond (Fixed.json (Json.obj
          [("error", Json.str "Missing \x27user\x27 (string) in body")]) 400) :=
  ⟨rfl, rfl, rfl,
   C10_fixed_empty_user parseEmptyUser (Fixed.Env.mk "secret") reqEmptyUser
     (Json.obj [("user", Json.str "")]) rfl rfl rfl (Or.inl rfl)⟩

example : Mirror.csv (some "a, b,,c") = ["a", "b", "c"] := by decide
example : Mirror.csv none = [] := by decide
example : strIncludes "application/json; charset=utf-8" "application/json" = true := by decide
example : strIncludes "text/plain" "application/json" = false := by decide
example : Json.stringify (Json.obj []) = "\x7b\x7d" := by decide
example :
    Json.stringify (Json.obj [("ok", Json.bool true)]) = "\x7b\"ok\":true\x7d" := by decide
